import Mathlib

/-!
Shallow embedding of the CraftMyStore payment controllers
(`src/controllers/paymentController.js` and the PayPal controller variant in
`src/unnamed/part_001`, wired by `src/routes/paymentRoutes.js`).

Modelling conventions:
* The process-wide mutable map `global.pendingPayments` is the `Store`
  (an association list), threaded explicitly through each handler.
* Each Express handler becomes a function from its request data, the results
  of its external calls (provider SDK calls are parameters of type
  `Except Unit _`, where `Except.error` models an awaited call that throws),
  and the incoming store, to a `HandlerResult`: the HTTP response sent, the
  store after the handler ran, and the list of side-effect dispatches
  (admin-notification email, Firestore archive) the handler performed.
* JS `undefined`-or-string values are `Option String`; JS truthiness and the
  `x || d` default idiom are `jsTruthy` / `jsOr`.
* Wall-clock timestamp fields (`createdAt`, `updatedAt`, `verifiedAt`) and
  the raw provider payload blobs stored for audit (`paymentDetails`,
  `webhookData`, `paypalCaptureData`) are outside the model: no control flow
  reads them.
* Request `amount` values are modelled as integers (the numeric JSON
  payloads); a string-typed amount appears only where the code itself stores
  a raw string (the PayPal fabrication path), via `JsAmount`.
-/

namespace CMS

/-- A JS value that is either a string or `undefined`. -/
abbrev JStr := Option String

/-- JS truthiness of a string-or-undefined value: `undefined` and `""` are falsy. -/
def jsTruthy : JStr → Bool
  | none => false
  | some s => !(s == "")

/-- The JS idiom `v || d` on a string-or-undefined value. -/
def jsOr (v : JStr) (d : String) : String :=
  match v with
  | none => d
  | some s => if s == "" then d else s

/-- JS string coercion used by `+` concatenation: `undefined` prints as "undefined". -/
def jsUndef (v : JStr) : String :=
  match v with
  | none => "undefined"
  | some s => s

/-- JS truthiness of a number-or-undefined value: `undefined` and `0` are falsy. -/
def jsNumTruthy : Option Int → Bool
  | none => false
  | some n => !(n == 0)

/-- The regex `/^\d\x7b10\x7d$/` from the PhonePe initiation validation. -/
def isTenDigits (s : String) : Bool :=
  s.length == 10 && s.toList.all Char.isDigit

/-- An amount as stored in a payment record: a JS number at initiation,
a raw string on the PayPal fabrication path (`amount?.value || '0'`). -/
inductive JsAmount
  | num (n : Int)
  | str (s : String)
deriving DecidableEq

/-- One entry of `global.pendingPayments` (the `paymentInfo` objects built by
the initiation handlers, plus the provider-handle fields assigned later). -/
structure PaymentRecord where
  merchantTransactionId : String
  amount : JsAmount
  customerName : String
  customerEmail : String
  customerPhone : JStr
  ecommPlan : JStr
  hostingPlan : JStr
  status : JStr
  phonepeOrderId : JStr := none
  redirectUrl : JStr := none
  cashfreeOrderId : JStr := none
  paymentSessionId : JStr := none
deriving DecidableEq

/-- `global.pendingPayments`: a string-keyed map of payment records. -/
abbrev Store := List (String × PaymentRecord)

/-- Property read `global.pendingPayments[id]` (`undefined` when absent). -/
def lookup : Store → String → Option PaymentRecord
  | [], _ => none
  | (k, v) :: rest, id => if k == id then some v else lookup rest id

/-- Property write `global.pendingPayments[id] = v` (overwrite or insert). -/
def setKey : Store → String → PaymentRecord → Store
  | [], id, v => [(id, v)]
  | (k, w) :: rest, id, v =>
      if k == id then (id, v) :: rest else (k, w) :: setKey rest id v

/-- A side-effect dispatch performed by a handler: an admin-notification
email carrying a snapshot of the payment record, or a Firestore archive
write keyed by transaction id with the `paymentMethod` and `status` the
handler wrote into the archived document. -/
inductive Effect
  | notifyAdmin (snapshot : PaymentRecord)
  | archiveRecord (txId : String) (method : String) (statusWritten : String)
deriving DecidableEq

/-- Number of admin-notification dispatches in an effect list. -/
def notifyCount (effs : List Effect) : Nat :=
  effs.countP fun e => match e with | .notifyAdmin _ => true | _ => false

/-- Number of Firestore-archive dispatches in an effect list. -/
def archiveCount (effs : List Effect) : Nat :=
  effs.countP fun e => match e with | .archiveRecord _ _ _ => true | _ => false

/-- The JSON response a handler sends: HTTP status code, the `success`
field, and the `status` field when the response carries one. The free-text
`message` and echoed `data` fields are not modelled. -/
structure HttpResponse where
  httpStatus : Nat
  success : Bool
  status : JStr := none
deriving DecidableEq

/-- Everything observable about one handler invocation. -/
structure HandlerResult where
  resp : HttpResponse
  store : Store
  effects : List Effect
deriving DecidableEq

/-- Outcomes of the two best-effort side effects during one invocation:
whether the SMTP send inside `sendAdminNotificationEmail` succeeds and
whether the Firestore write inside `storePaymentData` succeeds. -/
structure EffectOutcomes where
  emailOk : Bool
  archiveOk : Bool
deriving DecidableEq

/-- `sendAdminNotificationEmail`: builds and sends the admin email; its body
is wrapped in try/catch, returning `true` on success and `false` on any
error, never throwing. Email rendering and SMTP transport are outside the
model, so the outcome is the `ok` oracle. -/
def sendAdminNotificationEmail (ok : Bool) (_details : PaymentRecord) : Bool :=
  ok

/-- `storePaymentData`: writes the payment document to Firestore; its body is
wrapped in try/catch, returning the transaction id on success and `null` on
any error, never throwing. -/
def storePaymentData (ok : Bool) (txId : String) : Option String :=
  if ok then some txId else none

/-- PhonePe SDK `client.pay` response: the fields the code reads. -/
structure PhonePePayResponse where
  orderId : JStr
  redirectUrl : JStr
deriving DecidableEq

/-- PhonePe SDK `client.getOrderStatus` response: the code branches only on
`state`; the `paymentDetails` array is read only for log/error text. -/
structure PhonePeStatusResponse where
  state : JStr
deriving DecidableEq

/-- Cashfree `PGCreateOrder` response `data`: the fields the code reads. -/
structure CashfreeCreateOrderData where
  order_id : JStr
  payment_session_id : JStr
deriving DecidableEq

/-- Cashfree `PGFetchOrder` response `data`: the code branches on
`order_status` only. -/
structure CashfreeOrderData where
  order_status : JStr
deriving DecidableEq

/-- PayPal capture response `data`: the fields the code reads when
fabricating a record for an unknown order id. The `status` field is
declared because the payload carries one, but `capturePayPalPayment`
never inspects it. -/
structure PayPalCaptureData where
  status : JStr
  payerGivenName : JStr
  payerSurname : JStr
  payerEmail : JStr
  captureAmountValue : JStr
  description : JStr
deriving DecidableEq

/-- The `ecommPlan` expression of the PayPal fabrication path:
`description?.includes('CraftMyStore') ? description.split('-')[1]?.trim() : 'Standard'`.
`includes` is rendered as "splitting on the needle yields more than one
piece"; a missing piece after `-` leaves the field `undefined`. -/
def paypalEcommPlan (desc : JStr) : JStr :=
  match desc with
  | none => some "Standard"
  | some d =>
      if (d.splitOn "CraftMyStore").length > 1 then
        match (d.splitOn "-").get? 1 with
        | some piece => some piece.trim
        | none => none
      else some "Standard"

/-- The record `capturePayPalPayment` fabricates from the capture payload
when `global.pendingPayments[orderID]` is absent (part_001 lines 547-558).
Note the JS wart kept intact: `given_name + ' ' + surname || 'PayPal
Customer'` concatenates first, so missing names yield "undefined undefined"
and the default is dead code unless the concatenation is empty. -/
def fabricateFromCapture (oid : String) (c : PayPalCaptureData) : PaymentRecord :=
  let nameConcat := jsUndef c.payerGivenName ++ " " ++ jsUndef c.payerSurname
  { merchantTransactionId := oid
    customerName := if nameConcat == "" then "PayPal Customer" else nameConcat
    customerEmail := jsOr c.payerEmail "No email provided"
    customerPhone := some "Not provided via PayPal"
    amount := .str (jsOr c.captureAmountValue "0")
    ecommPlan := paypalEcommPlan c.description
    hostingPlan := some "Standard"
    status := none }

/-- The request body fields shared by the initiation handlers. -/
structure InitiationRequest where
  amount : Option Int
  ecommPlan : JStr
  hostingPlan : JStr
  customerName : JStr
  customerEmail : JStr
  customerPhone : JStr
deriving DecidableEq

/-- The `paymentInfo` object built by `initiatePhonePePayment` /
`initiateCashfreePayment` before the provider call (status `'PENDING'`). -/
def newPaymentInfo (req : InitiationRequest) (newId : String) : PaymentRecord :=
  { merchantTransactionId := newId
    amount := .num (req.amount.getD 0)
    customerName := jsOr req.customerName ""
    customerEmail := jsOr req.customerEmail ""
    customerPhone := req.customerPhone
    ecommPlan := req.ecommPlan
    hostingPlan := req.hostingPlan
    status := some "PENDING" }

/-- `initiatePhonePePayment` (paymentController.js lines 153-270).
`newId` is the generated `merchantTransactionId`; `payResult` is the awaited
`client.pay(request)` (`Except.error` = the SDK call threw, `some`/`none`
inside = the resolved response object or a null response). Validation
rejects missing fields, a non-10-digit phone, and `isNaN(amount) || amount
<= 0` (for integer amounts `isNaN` is false). The record is written to the
store with status PENDING *before* the provider call; on a successful
response carrying a `redirectUrl` it is updated in place to INITIATED with
the provider handle. -/
def initiatePhonePePayment (req : InitiationRequest) (newId : String)
    (payResult : Except Unit (Option PhonePePayResponse)) (store : Store) :
    HandlerResult :=
  if !(jsNumTruthy req.amount && jsTruthy req.customerPhone
        && jsTruthy req.customerEmail && jsTruthy req.customerName) then
    ⟨⟨400, false, none⟩, store, []⟩
  else if !(isTenDigits (jsOr req.customerPhone "")) then
    ⟨⟨400, false, none⟩, store, []⟩
  else if req.amount.getD 0 ≤ 0 then
    ⟨⟨400, false, none⟩, store, []⟩
  else
    let info := newPaymentInfo req newId
    let store1 := setKey store newId info
    match payResult with
    | .error _ => ⟨⟨500, false, none⟩, store1, []⟩
    | .ok resp =>
        match resp with
        | some r =>
            if jsTruthy r.redirectUrl then
              let store2 := setKey store1 newId
                { info with status := some "INITIATED",
                            phonepeOrderId := r.orderId,
                            redirectUrl := r.redirectUrl }
              ⟨⟨200, true, none⟩, store2, []⟩
            else ⟨⟨400, false, none⟩, store1, []⟩
        | none => ⟨⟨400, false, none⟩, store1, []⟩

/-- `phonePeCallback` (paymentController.js lines 273-294). Reads
`merchantTransactionId` and `status` from the query string; when the id is
truthy and a record exists, overwrites its status with `status ||
'COMPLETED'` unconditionally. Always responds 200. Dispatches nothing. -/
def phonePeCallback (qMtid qStatus : JStr) (store : Store) : HandlerResult :=
  if jsTruthy qMtid then
    match lookup store (jsOr qMtid "") with
    | some rec =>
        ⟨⟨200, true, none⟩,
          setKey store (jsOr qMtid "")
            { rec with status := some (jsOr qStatus "COMPLETED") }, []⟩
    | none => ⟨⟨200, true, none⟩, store, []⟩
  else ⟨⟨200, true, none⟩, store, []⟩

/-- `verifyPhonePePayment` (paymentController.js lines 297-421). `statusResult`
is the awaited `client.getOrderStatus` (`Except.error` = the call threw,
caught by the handler's catch → 500 with status FAILED and the store
untouched; `.ok none` = a null response: the store is first updated to
status UNKNOWN, then the else-branch's `statusResponse.paymentDetails`
access raises a TypeError caught by the same catch → 500 FAILED). On a
non-null response the stored status is overwritten with
`statusResponse?.state || 'UNKNOWN'`; state COMPLETED dispatches the email
and the Firestore archive and responds SUCCESS, state PENDING responds
PENDING, anything else responds FAILED. The dispatched snapshot is the
stored record object, which the handler has already mutated (aliasing). -/
def verifyPhonePePayment (mtid : JStr)
    (statusResult : Except Unit (Option PhonePeStatusResponse))
    (eff : EffectOutcomes) (store : Store) : HandlerResult :=
  if !(jsTruthy mtid) then ⟨⟨400, false, none⟩, store, []⟩
  else
    let id := jsOr mtid ""
    match lookup store id with
    | none => ⟨⟨404, false, none⟩, store, []⟩
    | some paymentInfo =>
        match statusResult with
        | .error _ => ⟨⟨500, false, some "FAILED"⟩, store, []⟩
        | .ok sr =>
            let updated :=
              { paymentInfo with
                  status := some (jsOr (sr.bind fun r => r.state) "UNKNOWN") }
            let store1 := setKey store id updated
            match sr with
            | some r =>
                if r.state == some "COMPLETED" then
                  let _emailSent := sendAdminNotificationEmail eff.emailOk updated
                  let _archived := storePaymentData eff.archiveOk id
                  ⟨⟨200, true, some "SUCCESS"⟩, store1,
                    [Effect.notifyAdmin updated,
                     Effect.archiveRecord id "phonepe" "COMPLETED"]⟩
                else if r.state == some "PENDING" then
                  ⟨⟨200, false, some "PENDING"⟩, store1, []⟩
                else
                  ⟨⟨200, false, some "FAILED"⟩, store1, []⟩
            | none => ⟨⟨500, false, some "FAILED"⟩, store1, []⟩

/-- `initiateCashfreePayment` (paymentController.js lines 424-512).
Validation checks only that `amount`, `customerEmail`, `customerName` are
truthy — there is no amount-positivity check and no phone-format check. The
record is persisted with status PENDING before `PGCreateOrder`; a response
whose `data` carries a `payment_session_id` upgrades it to INITIATED with
the session handle; a thrown call responds 500 and a handle-less response
responds 400, both leaving the PENDING record in the store. -/
def initiateCashfreePayment (req : InitiationRequest) (newId : String)
    (createResult : Except Unit (Option CashfreeCreateOrderData))
    (store : Store) : HandlerResult :=
  if !(jsNumTruthy req.amount && jsTruthy req.customerEmail
        && jsTruthy req.customerName) then
    ⟨⟨400, false, none⟩, store, []⟩
  else
    let info := newPaymentInfo req newId
    let store1 := setKey store newId info
    match createResult with
    | .error _ => ⟨⟨500, false, none⟩, store1, []⟩
    | .ok dataOpt =>
        match dataOpt with
        | some d =>
            if jsTruthy d.payment_session_id then
              let store2 := setKey store1 newId
                { info with status := some "INITIATED",
                            cashfreeOrderId := d.order_id,
                            paymentSessionId := d.payment_session_id }
              ⟨⟨200, true, none⟩, store2, []⟩
            else ⟨⟨400, false, none⟩, store1, []⟩
        | none => ⟨⟨400, false, none⟩, store1, []⟩

/-- `verifyCashfreePayment` (paymentController.js lines 515-611).
`fetchResult` is the awaited `PGFetchOrder` (`Except.error` = thrown, caught
→ 500 FAILED, store untouched). On a response the stored status is
overwritten with `order_status` (possibly `undefined`); `'PAID'` dispatches
email + archive and responds SUCCESS, `'ACTIVE'` responds PENDING, anything
else responds FAILED with no dispatch and no exception. -/
def verifyCashfreePayment (mtid : JStr)
    (fetchResult : Except Unit CashfreeOrderData)
    (eff : EffectOutcomes) (store : Store) : HandlerResult :=
  if !(jsTruthy mtid) then ⟨⟨400, false, none⟩, store, []⟩
  else
    let id := jsOr mtid ""
    match lookup store id with
    | none => ⟨⟨404, false, none⟩, store, []⟩
    | some paymentInfo =>
        match fetchResult with
        | .error _ => ⟨⟨500, false, some "FAILED"⟩, store, []⟩
        | .ok odata =>
            let updated := { paymentInfo with status := odata.order_status }
            let store1 := setKey store id updated
            if odata.order_status == some "PAID" then
              let _emailSent := sendAdminNotificationEmail eff.emailOk updated
              let _archived := storePaymentData eff.archiveOk id
              ⟨⟨200, true, some "SUCCESS"⟩, store1,
                [Effect.notifyAdmin updated,
                 Effect.archiveRecord id "cashfree" "COMPLETED"]⟩
            else if odata.order_status == some "ACTIVE" then
              ⟨⟨200, false, some "PENDING"⟩, store1, []⟩
            else
              ⟨⟨200, false, some "FAILED"⟩, store1, []⟩

/-- `cashfreeWebhook` (paymentController.js lines 614-665). `orderId` and
`orderStatus` are `eventData.data?.order?.order_id` / `?.order_status`
(optional chaining: `undefined` on any malformed shape). When the id is
truthy and a record exists, the stored status is overwritten (`'PAID'` is
recorded as `'COMPLETED'`, anything else verbatim); a `'PAID'` status
additionally dispatches email + archive, with no dispatched-before check.
Always responds 200. -/
def cashfreeWebhook (orderId orderStatus : JStr) (eff : EffectOutcomes)
    (store : Store) : HandlerResult :=
  if jsTruthy orderId then
    let id := jsOr orderId ""
    match lookup store id with
    | some rec =>
        let newStatus : JStr :=
          if orderStatus == some "PAID" then some "COMPLETED" else orderStatus
        let updated := { rec with status := newStatus }
        let store1 := setKey store id updated
        if orderStatus == some "PAID" then
          let _emailSent := sendAdminNotificationEmail eff.emailOk updated
          let _archived := storePaymentData eff.archiveOk id
          ⟨⟨200, true, none⟩, store1,
            [Effect.notifyAdmin updated,
             Effect.archiveRecord id "cashfree" "COMPLETED"]⟩
        else ⟨⟨200, true, none⟩, store1, []⟩
    | none => ⟨⟨200, true, none⟩, store, []⟩
  else ⟨⟨200, true, none⟩, store, []⟩

/-- `capturePayPalPayment` (part_001 lines 502-605). `tokenResult` is the
OAuth token call, `captureResult` the capture call; either throwing is
caught → 500. On a successful capture the handler takes the stored record
if present, otherwise fabricates one from the capture payload, sets its
status to COMPLETED *unconditionally* (the capture response's own `status`
field is never read), persists it, and dispatches email + archive. -/
def capturePayPalPayment (orderID : JStr)
    (tokenResult : Except Unit String)
    (captureResult : Except Unit PayPalCaptureData)
    (eff : EffectOutcomes) (store : Store) : HandlerResult :=
  if !(jsTruthy orderID) then ⟨⟨400, false, none⟩, store, []⟩
  else
    let oid := jsOr orderID ""
    match tokenResult with
    | .error _ => ⟨⟨500, false, none⟩, store, []⟩
    | .ok _tok =>
        match captureResult with
        | .error _ => ⟨⟨500, false, none⟩, store, []⟩
        | .ok cdata =>
            let paymentInfo :=
              match lookup store oid with
              | some rec => rec
              | none => fabricateFromCapture oid cdata
            let updated := { paymentInfo with status := some "COMPLETED" }
            let store1 := setKey store oid updated
            let _emailSent := sendAdminNotificationEmail eff.emailOk updated
            let _archived := storePaymentData eff.archiveOk oid
            ⟨⟨200, true, none⟩, store1,
              [Effect.notifyAdmin updated,
               Effect.archiveRecord oid "paypal" "COMPLETED"]⟩

/-! ### Concrete sample data used by counterexamples and witnesses -/

/-- A transaction as left by a successful initiation (state INITIATED). -/
def sampleRec : PaymentRecord :=
  { merchantTransactionId := "CMS1"
    amount := .num 500
    customerName := "Asha"
    customerEmail := "asha@example.com"
    customerPhone := some "9876543210"
    ecommPlan := some "Basic"
    hostingPlan := none
    status := some "INITIATED" }

/-- A store holding the single initiated transaction `CMS1`. -/
def sampleStore : Store := [("CMS1", sampleRec)]

/-- The same transaction after it has reached the success state. -/
def recSuccess : PaymentRecord := { sampleRec with status := some "COMPLETED" }

/-- A store holding a transaction already in the success state. -/
def storeSuccess : Store := [("CMS1", recSuccess)]

/-- Both side effects succeed. -/
def bothOk : EffectOutcomes := ⟨true, true⟩

/-- A Cashfree order payload reporting `order_status = "PAID"`. -/
def paidOrder : CashfreeOrderData := ⟨some "PAID"⟩

/-- A PayPal capture payload whose own `status` field is "PENDING". -/
def pendingCapture : PayPalCaptureData :=
  { status := some "PENDING"
    payerGivenName := some "Ravi"
    payerSurname := some "K"
    payerEmail := some "ravi@example.com"
    captureAmountValue := some "49.00"
    description := some "CraftMyStore - Basic + Silver" }

/-- A fully valid initiation request (the spec's PhonePe scenario inputs). -/
def validReq : InitiationRequest :=
  { amount := some 500
    ecommPlan := some "Basic"
    hostingPlan := none
    customerName := some "Asha"
    customerEmail := some "asha@example.com"
    customerPhone := some "9876543210" }

/-- A successful PhonePe `client.pay` response. -/
def okPay : PhonePePayResponse :=
  { orderId := some "OMO123", redirectUrl := some "https://pay.example/redir" }

/-- A PayPal capture payload with no order description (exercises the
fabrication path without the description-splitting branch). -/
def captureNoDesc : PayPalCaptureData :=
  { status := some "COMPLETED"
    payerGivenName := some "Ravi"
    payerSurname := some "K"
    payerEmail := some "ravi@example.com"
    captureAmountValue := some "49.00"
    description := none }

/-- An initiation request with a negative amount (and no phone). -/
def negReq : InitiationRequest :=
  { amount := some (-5)
    ecommPlan := some "Basic"
    hostingPlan := none
    customerName := some "Asha"
    customerEmail := some "asha@example.com"
    customerPhone := none }

/-- A successful Cashfree `PGCreateOrder` response body. -/
def okCreate : CashfreeCreateOrderData :=
  { order_id := some "ORD9", payment_session_id := some "sess_1" }

/-! ### Store lemmas -/

/-- Writing a key and reading it back yields the written record. -/
theorem lookup_setKey_self (s : Store) (k : String) (v : PaymentRecord) :
    lookup (setKey s k v) k = some v := by
  induction s with
  | nil => simp [setKey, lookup]
  | cons hd tl ih =>
      obtain ⟨k', v'⟩ := hd
      by_cases h : k' == k
      · simp [setKey, h, lookup]
      · simp only [setKey, h]
        simp only [Bool.false_eq_true, if_false, lookup, h, ih]

/-! ### Handler evaluation lemmas (shared) -/

/-- Cashfree verify on a PAID order for a stored transaction: records PAID,
responds SUCCESS, dispatches one notify and one archive. -/
theorem verifyCashfree_paid (id : String) (store : Store) (rec : PaymentRecord)
    (eff : EffectOutcomes) (hid : id ≠ "") (hrec : lookup store id = some rec) :
    verifyCashfreePayment (some id) (.ok paidOrder) eff store =
      ⟨⟨200, true, some "SUCCESS"⟩,
        setKey store id { rec with status := some "PAID" },
        [Effect.notifyAdmin { rec with status := some "PAID" },
         Effect.archiveRecord id "cashfree" "COMPLETED"]⟩ := by
  simp [verifyCashfreePayment, jsTruthy, jsOr, hid, hrec, paidOrder,
    sendAdminNotificationEmail, storePaymentData]

/-- Cashfree verify when the `PGFetchOrder` call throws: 500 FAILED response,
store untouched, nothing dispatched. -/
theorem verifyCashfree_err (id : String) (store : Store) (rec : PaymentRecord)
    (eff : EffectOutcomes) (hid : id ≠ "") (hrec : lookup store id = some rec) :
    verifyCashfreePayment (some id) (.error ()) eff store =
      ⟨⟨500, false, some "FAILED"⟩, store, []⟩ := by
  simp [verifyCashfreePayment, jsTruthy, jsOr, hid, hrec]

/-- Cashfree verify on an order status that is neither PAID nor ACTIVE:
records the raw status, responds FAILED at HTTP 200, dispatches nothing. -/
theorem verifyCashfree_other (id : String) (store : Store) (rec : PaymentRecord)
    (eff : EffectOutcomes) (o : CashfreeOrderData)
    (hid : id ≠ "") (hrec : lookup store id = some rec)
    (hp : o.order_status ≠ some "PAID") (ha : o.order_status ≠ some "ACTIVE") :
    verifyCashfreePayment (some id) (.ok o) eff store =
      ⟨⟨200, false, some "FAILED"⟩,
        setKey store id { rec with status := o.order_status }, []⟩ := by
  simp [verifyCashfreePayment, jsTruthy, jsOr, hid, hrec, hp, ha]

/-- Cashfree verify on an ACTIVE order: records ACTIVE, responds PENDING,
dispatches nothing. -/
theorem verifyCashfree_active (id : String) (store : Store)
    (rec : PaymentRecord) (eff : EffectOutcomes)
    (hid : id ≠ "") (hrec : lookup store id = some rec) :
    verifyCashfreePayment (some id) (.ok ⟨some "ACTIVE"⟩) eff store =
      ⟨⟨200, false, some "PENDING"⟩,
        setKey store id { rec with status := some "ACTIVE" }, []⟩ := by
  simp [verifyCashfreePayment, jsTruthy, jsOr, hid, hrec]

/-- PhonePe verify when `getOrderStatus` throws: 500 FAILED response, store
untouched, nothing dispatched. -/
theorem verifyPhonePe_err (id : String) (store : Store) (rec : PaymentRecord)
    (eff : EffectOutcomes) (hid : id ≠ "") (hrec : lookup store id = some rec) :
    verifyPhonePePayment (some id) (.error ()) eff store =
      ⟨⟨500, false, some "FAILED"⟩, store, []⟩ := by
  simp [verifyPhonePePayment, jsTruthy, jsOr, hid, hrec]

/-- PhonePe verify on a COMPLETED order state: records COMPLETED, responds
SUCCESS, dispatches one notify and one archive. -/
theorem verifyPhonePe_completed (id : String) (store : Store)
    (rec : PaymentRecord) (eff : EffectOutcomes)
    (hid : id ≠ "") (hrec : lookup store id = some rec) :
    verifyPhonePePayment (some id) (.ok (some ⟨some "COMPLETED"⟩)) eff store =
      ⟨⟨200, true, some "SUCCESS"⟩,
        setKey store id { rec with status := some "COMPLETED" },
        [Effect.notifyAdmin { rec with status := some "COMPLETED" },
         Effect.archiveRecord id "phonepe" "COMPLETED"]⟩ := by
  simp [verifyPhonePePayment, jsTruthy, jsOr, hid, hrec,
    sendAdminNotificationEmail, storePaymentData]

/-- PhonePe verify on a non-null status response whose state is neither
COMPLETED nor PENDING: records `state || 'UNKNOWN'`, responds FAILED at
HTTP 200, dispatches nothing. -/
theorem verifyPhonePe_other (id : String) (store : Store) (rec : PaymentRecord)
    (eff : EffectOutcomes) (r : PhonePeStatusResponse)
    (hid : id ≠ "") (hrec : lookup store id = some rec)
    (hc : r.state ≠ some "COMPLETED") (hp : r.state ≠ some "PENDING") :
    verifyPhonePePayment (some id) (.ok (some r)) eff store =
      ⟨⟨200, false, some "FAILED"⟩,
        setKey store id { rec with status := some (jsOr r.state "UNKNOWN") },
        []⟩ := by
  simp [verifyPhonePePayment, jsTruthy, jsOr, hid, hrec, hc, hp]

/-- PhonePe verify on a null status response: the stored status is first
overwritten with UNKNOWN, then the else-branch access raises a TypeError
caught by the handler, which responds 500 FAILED; nothing dispatched. -/
theorem verifyPhonePe_null (id : String) (store : Store) (rec : PaymentRecord)
    (eff : EffectOutcomes) (hid : id ≠ "") (hrec : lookup store id = some rec) :
    verifyPhonePePayment (some id) (.ok none) eff store =
      ⟨⟨500, false, some "FAILED"⟩,
        setKey store id { rec with status := some "UNKNOWN" }, []⟩ := by
  simp [verifyPhonePePayment, jsTruthy, jsOr, hid, hrec]

/-- PhonePe verify on a PENDING order state: records PENDING, responds
PENDING, dispatches nothing. -/
theorem verifyPhonePe_pending (id : String) (store : Store)
    (rec : PaymentRecord) (eff : EffectOutcomes)
    (hid : id ≠ "") (hrec : lookup store id = some rec) :
    verifyPhonePePayment (some id) (.ok (some ⟨some "PENDING"⟩)) eff store =
      ⟨⟨200, false, some "PENDING"⟩,
        setKey store id { rec with status := some "PENDING" }, []⟩ := by
  simp [verifyPhonePePayment, jsTruthy, jsOr, hid, hrec]

/-- The store after a PhonePe verify with any non-null status response:
the stored status is overwritten with `state || 'UNKNOWN'` before the
handler branches, in every branch. -/
theorem verifyPhonePe_ok_store (id : String) (store : Store)
    (rec : PaymentRecord) (eff : EffectOutcomes) (r : PhonePeStatusResponse)
    (hid : id ≠ "") (hrec : lookup store id = some rec) :
    (verifyPhonePePayment (some id) (Except.ok (some r)) eff store).store
      = setKey store id { rec with status := some (jsOr r.state "UNKNOWN") } := by
  by_cases hc : r.state = some "COMPLETED"
  · obtain ⟨st⟩ := r
    simp only at hc
    subst hc
    rw [verifyPhonePe_completed id store rec eff hid hrec]
    simp [jsOr]
  · by_cases hp : r.state = some "PENDING"
    · obtain ⟨st⟩ := r
      simp only at hp
      subst hp
      rw [verifyPhonePe_pending id store rec eff hid hrec]
      simp [jsOr]
    · rw [verifyPhonePe_other id store rec eff r hid hrec hc hp]

/-- PhonePe callback on a stored transaction: overwrites the status with
`status || 'COMPLETED'` unconditionally, responds 200, dispatches nothing. -/
theorem callback_present (id : String) (store : Store) (rec : PaymentRecord)
    (q : JStr) (hid : id ≠ "") (hrec : lookup store id = some rec) :
    phonePeCallback (some id) q store =
      ⟨⟨200, true, none⟩,
        setKey store id { rec with status := some (jsOr q "COMPLETED") }, []⟩ := by
  simp [phonePeCallback, jsTruthy, jsOr, hid, hrec]

/-- Cashfree webhook on a PAID delivery for a stored transaction: records
COMPLETED, responds 200, dispatches one notify and one archive — with no
check of any previously dispatched flag. -/
theorem webhook_paid (id : String) (store : Store) (rec : PaymentRecord)
    (eff : EffectOutcomes) (hid : id ≠ "") (hrec : lookup store id = some rec) :
    cashfreeWebhook (some id) (some "PAID") eff store =
      ⟨⟨200, true, none⟩,
        setKey store id { rec with status := some "COMPLETED" },
        [Effect.notifyAdmin { rec with status := some "COMPLETED" },
         Effect.archiveRecord id "cashfree" "COMPLETED"]⟩ := by
  simp [cashfreeWebhook, jsTruthy, jsOr, hid, hrec,
    sendAdminNotificationEmail, storePaymentData]

/-- PhonePe verify on an unknown transaction id: 404 response, store
untouched, nothing dispatched, regardless of the provider result. -/
theorem verifyPhonePe_notfound (id : String) (store : Store)
    (sres : Except Unit (Option PhonePeStatusResponse)) (eff : EffectOutcomes)
    (hid : id ≠ "") (hrec : lookup store id = none) :
    verifyPhonePePayment (some id) sres eff store =
      ⟨⟨404, false, none⟩, store, []⟩ := by
  simp [verifyPhonePePayment, jsTruthy, jsOr, hid, hrec]

/-- Cashfree verify on an unknown transaction id: 404 response, store
untouched, nothing dispatched, regardless of the provider result. -/
theorem verifyCashfree_notfound (id : String) (store : Store)
    (fres : Except Unit CashfreeOrderData) (eff : EffectOutcomes)
    (hid : id ≠ "") (hrec : lookup store id = none) :
    verifyCashfreePayment (some id) fres eff store =
      ⟨⟨404, false, none⟩, store, []⟩ := by
  simp [verifyCashfreePayment, jsTruthy, jsOr, hid, hrec]

/-- PhonePe callback on an unknown transaction id: acknowledged with 200,
store untouched, nothing dispatched. -/
theorem callback_unknown (id : String) (store : Store) (q : JStr)
    (hid : id ≠ "") (hrec : lookup store id = none) :
    phonePeCallback (some id) q store = ⟨⟨200, true, none⟩, store, []⟩ := by
  simp [phonePeCallback, jsTruthy, jsOr, hid, hrec]

/-- Cashfree webhook on an unknown order id: acknowledged with 200, store
untouched, nothing dispatched. -/
theorem webhook_unknown (id : String) (store : Store) (q : JStr)
    (eff : EffectOutcomes) (hid : id ≠ "") (hrec : lookup store id = none) :
    cashfreeWebhook (some id) q eff store = ⟨⟨200, true, none⟩, store, []⟩ := by
  simp [cashfreeWebhook, jsTruthy, jsOr, hid, hrec]

/-- PayPal capture for a stored order: marks it COMPLETED regardless of the
capture response's own `status` field, persists it, dispatches notify and
archive, responds success. -/
theorem capture_known (id : String) (store : Store) (rec : PaymentRecord)
    (tk : String) (c : PayPalCaptureData) (eff : EffectOutcomes)
    (hid : id ≠ "") (hrec : lookup store id = some rec) :
    capturePayPalPayment (some id) (.ok tk) (.ok c) eff store =
      ⟨⟨200, true, none⟩,
        setKey store id { rec with status := some "COMPLETED" },
        [Effect.notifyAdmin { rec with status := some "COMPLETED" },
         Effect.archiveRecord id "paypal" "COMPLETED"]⟩ := by
  simp [capturePayPalPayment, jsTruthy, jsOr, hid, hrec,
    sendAdminNotificationEmail, storePaymentData]

/-- PayPal capture for an order id that was never initiated: fabricates a
record from the capture payload, marks it COMPLETED, persists it, dispatches
notify and archive, responds success. -/
theorem capture_unknown (id : String) (store : Store)
    (tk : String) (c : PayPalCaptureData) (eff : EffectOutcomes)
    (hid : id ≠ "") (hrec : lookup store id = none) :
    capturePayPalPayment (some id) (.ok tk) (.ok c) eff store =
      ⟨⟨200, true, none⟩,
        setKey store id { fabricateFromCapture id c with status := some "COMPLETED" },
        [Effect.notifyAdmin { fabricateFromCapture id c with status := some "COMPLETED" },
         Effect.archiveRecord id "paypal" "COMPLETED"]⟩ := by
  simp [capturePayPalPayment, jsTruthy, jsOr, hid, hrec,
    sendAdminNotificationEmail, storePaymentData]

/-- The sample phone number used in initiation lemmas passes the digit test. -/
theorem phoneDigits : "9876543210".toList.all Char.isDigit = true := by decide

/-- PhonePe initiation with all validations passing and a throwing provider
call: the handler responds 500 but the PENDING record, persisted before the
call, stays in the store with no provider handle. -/
theorem initiatePhonePe_provider_throw (req : InitiationRequest)
    (newId : String) (store : Store) (a : Int)
    (hamt : req.amount = some a) (hpos : 0 < a)
    (hph : req.customerPhone = some "9876543210")
    (hem : jsTruthy req.customerEmail = true)
    (hnm : jsTruthy req.customerName = true) :
    initiatePhonePePayment req newId (.error ()) store =
      ⟨⟨500, false, none⟩, setKey store newId (newPaymentInfo req newId), []⟩ := by
  have h0 : a ≠ 0 := by omega
  have h1 : ¬ a ≤ 0 := by omega
  simp only [jsTruthy] at hem hnm
  simp +decide [initiatePhonePePayment, jsNumTruthy, jsTruthy, jsOr,
    isTenDigits, hamt, hph, hem, hnm, h0, h1, phoneDigits]

/-- PhonePe initiation with all validations passing and a provider response
carrying a redirect URL: the record is stored as INITIATED with the provider
handle. -/
theorem initiatePhonePe_provider_ok (req : InitiationRequest)
    (newId : String) (store : Store) (a : Int) (r : PhonePePayResponse)
    (hamt : req.amount = some a) (hpos : 0 < a)
    (hph : req.customerPhone = some "9876543210")
    (hem : jsTruthy req.customerEmail = true)
    (hnm : jsTruthy req.customerName = true)
    (hurl : jsTruthy r.redirectUrl = true) :
    initiatePhonePePayment req newId (.ok (some r)) store =
      ⟨⟨200, true, none⟩,
        setKey (setKey store newId (newPaymentInfo req newId)) newId
          { newPaymentInfo req newId with
              status := some "INITIATED",
              phonepeOrderId := r.orderId,
              redirectUrl := r.redirectUrl }, []⟩ := by
  have h0 : a ≠ 0 := by omega
  have h1 : ¬ a ≤ 0 := by omega
  simp only [jsTruthy] at hem hnm hurl
  simp +decide [initiatePhonePePayment, jsNumTruthy, jsTruthy, jsOr,
    isTenDigits, hamt, hph, hem, hnm, h0, h1, hurl, phoneDigits]

/-! ### Claim theorems -/

/-- Claim C1, counterexample: the code keeps no `sideEffectsDispatched`
guard — applying the same translated-SUCCESS signal (a Cashfree PAID verify)
twice to the same transaction dispatches the admin notification and the
archive twice, not at most once. -/
theorem c1_counterexample :
    (let r1 := verifyCashfreePayment (some "CMS1") (Except.ok paidOrder)
        bothOk sampleStore
     let r2 := verifyCashfreePayment (some "CMS1") (Except.ok paidOrder)
        bothOk r1.store
     notifyCount (r1.effects ++ r2.effects) = 2 ∧
       archiveCount (r1.effects ++ r2.effects) = 2 ∧
       ¬ notifyCount (r1.effects ++ r2.effects) ≤ 1) := by decide

/-- Claim C1 as amended: every verify/webhook signal that translates to
SUCCESS dispatches the side effects anew — each Cashfree PAID verification of
a stored transaction emits exactly one notify and one archive, including a
repeat of the identical signal; and the PhonePe callback records the success
state while dispatching nothing, so dispatch is not "iff SUCCESS is
reached". -/
theorem c1_amended_redispatch (id : String) (store : Store)
    (rec : PaymentRecord) (eff : EffectOutcomes)
    (hid : id ≠ "") (hrec : lookup store id = some rec) :
    notifyCount (verifyCashfreePayment (some id) (Except.ok paidOrder) eff
        store).effects = 1 ∧
    archiveCount (verifyCashfreePayment (some id) (Except.ok paidOrder) eff
        store).effects = 1 ∧
    notifyCount (verifyCashfreePayment (some id) (Except.ok paidOrder) eff
        (verifyCashfreePayment (some id) (Except.ok paidOrder) eff
          store).store).effects = 1 ∧
    archiveCount (verifyCashfreePayment (some id) (Except.ok paidOrder) eff
        (verifyCashfreePayment (some id) (Except.ok paidOrder) eff
          store).store).effects = 1 ∧
    (phonePeCallback (some id) (some "COMPLETED") store).effects = [] := by
  have h1 := verifyCashfree_paid id store rec eff hid hrec
  have h2 := verifyCashfree_paid id
      (setKey store id { rec with status := some "PAID" })
      { rec with status := some "PAID" } eff hid (lookup_setKey_self _ _ _)
  have h3 := callback_present id store rec (some "COMPLETED") hid hrec
  rw [h1, h2, h3]
  simp [notifyCount, archiveCount, List.countP, List.countP.go]

/-- Witness for the amended C1 theorem at concrete inputs. -/
theorem c1_amended_redispatch_witness :
    ("CMS1" : String) ≠ "" ∧ lookup sampleStore "CMS1" = some sampleRec ∧
    (notifyCount (verifyCashfreePayment (some "CMS1") (Except.ok paidOrder)
        bothOk sampleStore).effects = 1 ∧
     archiveCount (verifyCashfreePayment (some "CMS1") (Except.ok paidOrder)
        bothOk sampleStore).effects = 1 ∧
     notifyCount (verifyCashfreePayment (some "CMS1") (Except.ok paidOrder)
        bothOk (verifyCashfreePayment (some "CMS1") (Except.ok paidOrder)
          bothOk sampleStore).store).effects = 1 ∧
     archiveCount (verifyCashfreePayment (some "CMS1") (Except.ok paidOrder)
        bothOk (verifyCashfreePayment (some "CMS1") (Except.ok paidOrder)
          bothOk sampleStore).store).effects = 1 ∧
     (phonePeCallback (some "CMS1") (some "COMPLETED") sampleStore).effects
        = []) :=
  ⟨by decide, by decide,
    c1_amended_redispatch "CMS1" sampleStore sampleRec bothOk
      (by decide) (by decide)⟩

/-- Claim C2, counterexample: the store performs no per-id serialization and
the webhook performs no dispatched-flag check — two Cashfree PAID webhook
deliveries for the same order, even when fully serialized (the best case any
interleaving can achieve), produce two notify and two archive calls, not
exactly one of each. -/
theorem c2_counterexample :
    (let w1 := cashfreeWebhook (some "CMS1") (some "PAID") bothOk sampleStore
     let w2 := cashfreeWebhook (some "CMS1") (some "PAID") bothOk w1.store
     notifyCount (w1.effects ++ w2.effects) = 2 ∧
       archiveCount (w1.effects ++ w2.effects) = 2) := by decide

/-- Claim C2 as amended: there is no per-id serialization or dispatch guard;
each PAID webhook delivery for a stored order dispatches one notify and one
archive, so two deliveries — in any interleaving, including the fully
serialized one — yield two of each. -/
theorem c2_amended_no_guard (id : String) (store : Store)
    (rec : PaymentRecord) (e1 e2 : EffectOutcomes)
    (hid : id ≠ "") (hrec : lookup store id = some rec) :
    notifyCount (cashfreeWebhook (some id) (some "PAID") e1 store).effects
        = 1 ∧
    archiveCount (cashfreeWebhook (some id) (some "PAID") e1 store).effects
        = 1 ∧
    notifyCount (cashfreeWebhook (some id) (some "PAID") e2
        (cashfreeWebhook (some id) (some "PAID") e1 store).store).effects
        = 1 ∧
    archiveCount (cashfreeWebhook (some id) (some "PAID") e2
        (cashfreeWebhook (some id) (some "PAID") e1 store).store).effects
        = 1 := by
  have h1 := webhook_paid id store rec e1 hid hrec
  have h2 := webhook_paid id
      (setKey store id { rec with status := some "COMPLETED" })
      { rec with status := some "COMPLETED" } e2 hid (lookup_setKey_self _ _ _)
  rw [h1, h2]
  simp [notifyCount, archiveCount, List.countP, List.countP.go]

/-- Witness for the amended C2 theorem at concrete inputs. -/
theorem c2_amended_no_guard_witness :
    ("CMS1" : String) ≠ "" ∧ lookup sampleStore "CMS1" = some sampleRec ∧
    (notifyCount (cashfreeWebhook (some "CMS1") (some "PAID") bothOk
        sampleStore).effects = 1 ∧
     archiveCount (cashfreeWebhook (some "CMS1") (some "PAID") bothOk
        sampleStore).effects = 1 ∧
     notifyCount (cashfreeWebhook (some "CMS1") (some "PAID") bothOk
        (cashfreeWebhook (some "CMS1") (some "PAID") bothOk
          sampleStore).store).effects = 1 ∧
     archiveCount (cashfreeWebhook (some "CMS1") (some "PAID") bothOk
        (cashfreeWebhook (some "CMS1") (some "PAID") bothOk
          sampleStore).store).effects = 1) :=
  ⟨by decide, by decide,
    c2_amended_no_guard "CMS1" sampleStore sampleRec bothOk bothOk
      (by decide) (by decide)⟩

/-- Claim C3, counterexample: a transaction already in the terminal success
state (stored status COMPLETED) is downgraded back to PENDING by a
subsequent PhonePe callback carrying status "PENDING" — terminal states are
not sticky. -/
theorem c3_counterexample :
    lookup storeSuccess "CMS1" = some recSuccess ∧
    recSuccess.status = some "COMPLETED" ∧
    lookup (phonePeCallback (some "CMS1") (some "PENDING")
        storeSuccess).store "CMS1"
      = some { recSuccess with status := some "PENDING" } := by decide

/-- Claim C3 as amended: status signals overwrite the stored status
unconditionally whenever the transaction exists — the PhonePe callback
writes `status || 'COMPLETED'` and the PhonePe verify writes the provider's
`state || 'UNKNOWN'`, both irrespective of the current (possibly terminal)
state, so SUCCESS and FAILED can be left again. -/
theorem c3_amended_overwrite (id : String) (store : Store)
    (rec : PaymentRecord) (q : JStr) (r : PhonePeStatusResponse)
    (eff : EffectOutcomes) (hid : id ≠ "") (hrec : lookup store id = some rec) :
    lookup (phonePeCallback (some id) q store).store id
        = some { rec with status := some (jsOr q "COMPLETED") } ∧
    lookup (verifyPhonePePayment (some id) (Except.ok (some r)) eff
        store).store id
        = some { rec with status := some (jsOr r.state "UNKNOWN") } := by
  constructor
  · rw [callback_present id store rec q hid hrec]
    exact lookup_setKey_self _ _ _
  · rw [verifyPhonePe_ok_store id store rec eff r hid hrec]
    exact lookup_setKey_self _ _ _

/-- Witness for the amended C3 theorem at concrete inputs: a COMPLETED
transaction is overwritten to PENDING by the callback and to the raw
provider state by the verify poll. -/
theorem c3_amended_overwrite_witness :
    ("CMS1" : String) ≠ "" ∧ lookup storeSuccess "CMS1" = some recSuccess ∧
    (lookup (phonePeCallback (some "CMS1") (some "PENDING")
        storeSuccess).store "CMS1"
        = some { recSuccess with status := some (jsOr (some "PENDING")
            "COMPLETED") } ∧
     lookup (verifyPhonePePayment (some "CMS1")
        (Except.ok (some ⟨some "PENDING"⟩)) bothOk storeSuccess).store "CMS1"
        = some { recSuccess with status := some (jsOr (some "PENDING")
            "UNKNOWN") }) :=
  ⟨by decide, by decide,
    c3_amended_overwrite "CMS1" storeSuccess recSuccess (some "PENDING")
      ⟨some "PENDING"⟩ bothOk (by decide) (by decide)⟩

/-- Claim C4, counterexample: `capturePayPalPayment` never reads the capture
response's `status` field — a capture payload whose own status is "PENDING"
(not COMPLETED) is still recorded as COMPLETED, reported as success, and
triggers a side-effect dispatch. -/
theorem c4_counterexample :
    pendingCapture.status = some "PENDING" ∧
    (capturePayPalPayment (some "CMS1") (Except.ok "tk")
        (Except.ok pendingCapture) bothOk sampleStore).resp.success = true ∧
    lookup (capturePayPalPayment (some "CMS1") (Except.ok "tk")
        (Except.ok pendingCapture) bothOk sampleStore).store "CMS1"
      = some { sampleRec with status := some "COMPLETED" } ∧
    notifyCount (capturePayPalPayment (some "CMS1") (Except.ok "tk")
        (Except.ok pendingCapture) bothOk sampleStore).effects = 1 := by decide

/-- Claim C4 as amended: the PhonePe and Cashfree tables hold as specified
(PhonePe COMPLETED ↦ SUCCESS, PENDING ↦ PENDING, anything else ↦ FAILED;
Cashfree PAID ↦ SUCCESS, ACTIVE ↦ PENDING, anything else ↦ FAILED), but a
PayPal capture call that returns without throwing is treated as success
regardless of the capture response's `status` field. -/
theorem c4_amended_translation (id : String) (store : Store)
    (rec : PaymentRecord) (eff : EffectOutcomes) (r : PhonePeStatusResponse)
    (o : CashfreeOrderData) (c : PayPalCaptureData) (tk : String)
    (hid : id ≠ "") (hrec : lookup store id = some rec) :
    (verifyPhonePePayment (some id) (Except.ok (some r)) eff store).resp.status
        = some (if r.state = some "COMPLETED" then "SUCCESS"
            else if r.state = some "PENDING" then "PENDING" else "FAILED") ∧
    (verifyCashfreePayment (some id) (Except.ok o) eff store).resp.status
        = some (if o.order_status = some "PAID" then "SUCCESS"
            else if o.order_status = some "ACTIVE" then "PENDING"
            else "FAILED") ∧
    (capturePayPalPayment (some id) (Except.ok tk) (Except.ok c) eff
        store).resp = ⟨200, true, none⟩ := by
  refine ⟨?_, ?_, ?_⟩
  · by_cases hc : r.state = some "COMPLETED"
    · obtain ⟨st⟩ := r
      simp only at hc
      subst hc
      rw [verifyPhonePe_completed id store rec eff hid hrec]
      simp
    · by_cases hp : r.state = some "PENDING"
      · obtain ⟨st⟩ := r
        simp only at hp
        subst hp
        rw [verifyPhonePe_pending id store rec eff hid hrec]
        simp
      · rw [verifyPhonePe_other id store rec eff r hid hrec hc hp]
        simp [hc, hp]
  · by_cases hc : o.order_status = some "PAID"
    · obtain ⟨st⟩ := o
      simp only at hc
      subst hc
      rw [show ({ order_status := some "PAID" } : CashfreeOrderData)
            = paidOrder from rfl,
        verifyCashfree_paid id store rec eff hid hrec]
      simp [paidOrder]
    · by_cases ha : o.order_status = some "ACTIVE"
      · obtain ⟨st⟩ := o
        simp only at ha
        subst ha
        rw [verifyCashfree_active id store rec eff hid hrec]
        simp
      · rw [verifyCashfree_other id store rec eff o hid hrec hc ha]
        simp [hc, ha]
  · rw [capture_known id store rec tk c eff hid hrec]

/-- Witness for the amended C4 theorem at concrete inputs. -/
theorem c4_amended_translation_witness :
    ("CMS1" : String) ≠ "" ∧ lookup sampleStore "CMS1" = some sampleRec ∧
    ((verifyPhonePePayment (some "CMS1")
        (Except.ok (some ⟨some "COMPLETED"⟩)) bothOk sampleStore).resp.status
        = some (if (some "COMPLETED" : JStr) = some "COMPLETED" then "SUCCESS"
            else if (some "COMPLETED" : JStr) = some "PENDING" then "PENDING"
            else "FAILED") ∧
     (verifyCashfreePayment (some "CMS1") (Except.ok ⟨some "EXPIRED"⟩) bothOk
        sampleStore).resp.status
        = some (if (some "EXPIRED" : JStr) = some "PAID" then "SUCCESS"
            else if (some "EXPIRED" : JStr) = some "ACTIVE" then "PENDING"
            else "FAILED") ∧
     (capturePayPalPayment (some "CMS1") (Except.ok "tk")
        (Except.ok pendingCapture) bothOk sampleStore).resp
        = ⟨200, true, none⟩) :=
  ⟨by decide, by decide,
    c4_amended_translation "CMS1" sampleStore sampleRec bothOk
      ⟨some "COMPLETED"⟩ ⟨some "EXPIRED"⟩ pendingCapture "tk"
      (by decide) (by decide)⟩

/-- Claim C5, counterexample: on a fully valid PhonePe initiation whose
provider call throws, the handler responds 500 but one transaction remains
persisted in PENDING state with no provider handle — not zero transactions. -/
theorem c5_counterexample :
    (initiatePhonePePayment validReq "NEW1" (Except.error ()) []).resp.httpStatus
        = 500 ∧
    lookup (initiatePhonePePayment validReq "NEW1" (Except.error ()) []).store
        "NEW1" = some (newPaymentInfo validReq "NEW1") ∧
    (newPaymentInfo validReq "NEW1").status = some "PENDING" ∧
    (newPaymentInfo validReq "NEW1").phonepeOrderId = none ∧
    (newPaymentInfo validReq "NEW1").redirectUrl = none := by decide

/-- Claim C5 as amended: the transaction is persisted in PENDING state
*before* the provider call; on provider success it is upgraded to INITIATED
with the provider handle, but on a provider error it stays persisted in
PENDING with no handle (the handler merely responds 500). -/
theorem c5_amended_pending_persisted (req : InitiationRequest)
    (newId : String) (store : Store) (a : Int) (r : PhonePePayResponse)
    (hamt : req.amount = some a) (hpos : 0 < a)
    (hph : req.customerPhone = some "9876543210")
    (hem : jsTruthy req.customerEmail = true)
    (hnm : jsTruthy req.customerName = true)
    (hurl : jsTruthy r.redirectUrl = true) :
    ((initiatePhonePePayment req newId (Except.error ()) store).resp.httpStatus
        = 500 ∧
     lookup (initiatePhonePePayment req newId (Except.error ()) store).store
        newId = some (newPaymentInfo req newId) ∧
     (newPaymentInfo req newId).status = some "PENDING" ∧
     (newPaymentInfo req newId).phonepeOrderId = none) ∧
    ((initiatePhonePePayment req newId (Except.ok (some r)) store).resp.httpStatus
        = 200 ∧
     lookup (initiatePhonePePayment req newId (Except.ok (some r)) store).store
        newId
        = some { newPaymentInfo req newId with
                  status := some "INITIATED",
                  phonepeOrderId := r.orderId,
                  redirectUrl := r.redirectUrl }) := by
  constructor
  · rw [initiatePhonePe_provider_throw req newId store a hamt hpos hph hem hnm]
    exact ⟨rfl, lookup_setKey_self _ _ _, rfl, rfl⟩
  · rw [initiatePhonePe_provider_ok req newId store a r hamt hpos hph hem hnm
      hurl]
    exact ⟨rfl, lookup_setKey_self _ _ _⟩

/-- Witness for the amended C5 theorem at concrete inputs. -/
theorem c5_amended_pending_persisted_witness :
    validReq.amount = some 500 ∧ (0 : Int) < 500 ∧
    validReq.customerPhone = some "9876543210" ∧
    jsTruthy validReq.customerEmail = true ∧
    jsTruthy validReq.customerName = true ∧
    jsTruthy okPay.redirectUrl = true ∧
    (((initiatePhonePePayment validReq "NEW1" (Except.error ()) []).resp.httpStatus
        = 500 ∧
      lookup (initiatePhonePePayment validReq "NEW1" (Except.error ()) []).store
        "NEW1" = some (newPaymentInfo validReq "NEW1") ∧
      (newPaymentInfo validReq "NEW1").status = some "PENDING" ∧
      (newPaymentInfo validReq "NEW1").phonepeOrderId = none) ∧
     ((initiatePhonePePayment validReq "NEW1" (Except.ok (some okPay))
          []).resp.httpStatus = 200 ∧
      lookup (initiatePhonePePayment validReq "NEW1" (Except.ok (some okPay))
          []).store "NEW1"
        = some { newPaymentInfo validReq "NEW1" with
                  status := some "INITIATED",
                  phonepeOrderId := okPay.orderId,
                  redirectUrl := okPay.redirectUrl })) :=
  ⟨by decide, by decide, by decide, by decide, by decide, by decide,
    c5_amended_pending_persisted validReq "NEW1" [] 500 okPay
      (by decide) (by decide) (by decide) (by decide) (by decide) (by decide)⟩

/-- Claim C6, counterexample: a PayPal capture request for an order id that
was never initiated is not rejected — the handler fabricates a record from
the capture payload, persists it under that id, dispatches the side
effects, and responds success. -/
theorem c6_counterexample :
    lookup ([] : Store) "PPX" = none ∧
    (capturePayPalPayment (some "PPX") (Except.ok "tk")
        (Except.ok captureNoDesc) bothOk []).store
      = [("PPX", { fabricateFromCapture "PPX" captureNoDesc with
                    status := some "COMPLETED" })] ∧
    notifyCount (capturePayPalPayment (some "PPX") (Except.ok "tk")
        (Except.ok captureNoDesc) bothOk []).effects = 1 ∧
    (capturePayPalPayment (some "PPX") (Except.ok "tk")
        (Except.ok captureNoDesc) bothOk []).resp.success = true := by decide

/-- Claim C6 as amended: unknown-id verify requests are rejected with a 404
not-found and leave the store untouched; unknown-id callback and webhook
signals are silently acknowledged with 200, fabricating nothing and never
crashing; but the PayPal capture handler fabricates a record from the
capture payload, persists it, and dispatches side effects for an id that was
never initiated. -/
theorem c6_amended_unknown_id (id : String) (store : Store)
    (sres : Except Unit (Option PhonePeStatusResponse))
    (fres : Except Unit CashfreeOrderData) (q : JStr) (tk : String)
    (c : PayPalCaptureData) (eff : EffectOutcomes)
    (hid : id ≠ "") (hrec : lookup store id = none) :
    verifyPhonePePayment (some id) sres eff store
        = ⟨⟨404, false, none⟩, store, []⟩ ∧
    verifyCashfreePayment (some id) fres eff store
        = ⟨⟨404, false, none⟩, store, []⟩ ∧
    phonePeCallback (some id) q store = ⟨⟨200, true, none⟩, store, []⟩ ∧
    cashfreeWebhook (some id) q eff store = ⟨⟨200, true, none⟩, store, []⟩ ∧
    capturePayPalPayment (some id) (Except.ok tk) (Except.ok c) eff store
        = ⟨⟨200, true, none⟩,
            setKey store id { fabricateFromCapture id c with
                                status := some "COMPLETED" },
            [Effect.notifyAdmin { fabricateFromCapture id c with
                                    status := some "COMPLETED" },
             Effect.archiveRecord id "paypal" "COMPLETED"]⟩ :=
  ⟨verifyPhonePe_notfound id store sres eff hid hrec,
   verifyCashfree_notfound id store fres eff hid hrec,
   callback_unknown id store q hid hrec,
   webhook_unknown id store q eff hid hrec,
   capture_unknown id store tk c eff hid hrec⟩

/-- Witness for the amended C6 theorem at concrete inputs. -/
theorem c6_amended_unknown_id_witness :
    ("PPX" : String) ≠ "" ∧ lookup ([] : Store) "PPX" = none ∧
    (verifyPhonePePayment (some "PPX") (Except.error ()) bothOk []
        = ⟨⟨404, false, none⟩, [], []⟩ ∧
     verifyCashfreePayment (some "PPX") (Except.error ()) bothOk []
        = ⟨⟨404, false, none⟩, [], []⟩ ∧
     phonePeCallback (some "PPX") (some "COMPLETED") []
        = ⟨⟨200, true, none⟩, [], []⟩ ∧
     cashfreeWebhook (some "PPX") (some "PAID") bothOk []
        = ⟨⟨200, true, none⟩, [], []⟩ ∧
     capturePayPalPayment (some "PPX") (Except.ok "tk")
        (Except.ok captureNoDesc) bothOk []
        = ⟨⟨200, true, none⟩,
            setKey [] "PPX" { fabricateFromCapture "PPX" captureNoDesc with
                                status := some "COMPLETED" },
            [Effect.notifyAdmin { fabricateFromCapture "PPX" captureNoDesc with
                                    status := some "COMPLETED" },
             Effect.archiveRecord "PPX" "paypal" "COMPLETED"]⟩) :=
  ⟨by decide, by decide,
    c6_amended_unknown_id "PPX" [] (Except.error ()) (Except.error ())
      (some "COMPLETED") "tk" captureNoDesc bothOk (by decide) (by decide)⟩

/-- Claim C7, counterexample: a PhonePe callback whose payload is missing the
status field does not translate to FAILED — the code defaults it to
COMPLETED, recording the transaction as successful. -/
theorem c7_counterexample :
    lookup (phonePeCallback (some "CMS1") none sampleStore).store "CMS1"
        = some { sampleRec with status := some "COMPLETED" } ∧
    (some "COMPLETED" : JStr) ≠ some "FAILED" ∧
    (phonePeCallback (some "CMS1") none sampleStore).effects = [] := by decide

/-- Claim C7 as amended: a malformed Cashfree status payload (missing
`order_status`) yields FAILED with no exception and no dispatch; a null
PhonePe status response first records UNKNOWN and then raises an internal
TypeError that the handler catches, reporting FAILED at HTTP 500 with no
dispatch; and a PhonePe callback with an absent status records COMPLETED
(success), not FAILED, with no dispatch. -/
theorem c7_amended_malformed (id : String) (store : Store)
    (rec : PaymentRecord) (eff : EffectOutcomes)
    (hid : id ≠ "") (hrec : lookup store id = some rec) :
    verifyCashfreePayment (some id) (Except.ok ⟨none⟩) eff store
        = ⟨⟨200, false, some "FAILED"⟩,
            setKey store id { rec with status := none }, []⟩ ∧
    verifyPhonePePayment (some id) (Except.ok none) eff store
        = ⟨⟨500, false, some "FAILED"⟩,
            setKey store id { rec with status := some "UNKNOWN" }, []⟩ ∧
    lookup (phonePeCallback (some id) none store).store id
        = some { rec with status := some "COMPLETED" } ∧
    (phonePeCallback (some id) none store).effects = [] := by
  refine ⟨?_, verifyPhonePe_null id store rec eff hid hrec, ?_, ?_⟩
  · exact verifyCashfree_other id store rec eff ⟨none⟩ hid hrec
      (by simp) (by simp)
  · rw [callback_present id store rec none hid hrec]
    exact lookup_setKey_self _ _ _
  · rw [callback_present id store rec none hid hrec]

/-- Witness for the amended C7 theorem at concrete inputs. -/
theorem c7_amended_malformed_witness :
    ("CMS1" : String) ≠ "" ∧ lookup sampleStore "CMS1" = some sampleRec ∧
    (verifyCashfreePayment (some "CMS1") (Except.ok ⟨none⟩) bothOk sampleStore
        = ⟨⟨200, false, some "FAILED"⟩,
            setKey sampleStore "CMS1" { sampleRec with status := none }, []⟩ ∧
     verifyPhonePePayment (some "CMS1") (Except.ok none) bothOk sampleStore
        = ⟨⟨500, false, some "FAILED"⟩,
            setKey sampleStore "CMS1"
              { sampleRec with status := some "UNKNOWN" }, []⟩ ∧
     lookup (phonePeCallback (some "CMS1") none sampleStore).store "CMS1"
        = some { sampleRec with status := some "COMPLETED" } ∧
     (phonePeCallback (some "CMS1") none sampleStore).effects = []) :=
  ⟨by decide, by decide,
    c7_amended_malformed "CMS1" sampleStore sampleRec bothOk
      (by decide) (by decide)⟩

/-- Claim C8, confirmed: when the provider status query itself throws, both
verify handlers report the failure at HTTP 500 (with a server-error
message), which differs from the HTTP 200 payment-FAILED outcome, and they
leave the stored transaction untouched and dispatch nothing, so a later
retry starts from the same state. (The JSON `status` field is "FAILED" in
both outcomes; the distinction the caller sees is the HTTP status code and
the message.) -/
theorem c8_provider_error_distinct (id : String) (store : Store)
    (rec : PaymentRecord) (eff : EffectOutcomes) (r : PhonePeStatusResponse)
    (o : CashfreeOrderData) (hid : id ≠ "")
    (hrec : lookup store id = some rec)
    (hc : r.state ≠ some "COMPLETED") (hp : r.state ≠ some "PENDING")
    (hpaid : o.order_status ≠ some "PAID")
    (hactive : o.order_status ≠ some "ACTIVE") :
    verifyPhonePePayment (some id) (Except.error ()) eff store
        = ⟨⟨500, false, some "FAILED"⟩, store, []⟩ ∧
    (verifyPhonePePayment (some id) (Except.ok (some r)) eff store).resp
        = ⟨200, false, some "FAILED"⟩ ∧
    (verifyPhonePePayment (some id) (Except.error ()) eff store).resp
        ≠ (verifyPhonePePayment (some id) (Except.ok (some r)) eff store).resp ∧
    verifyCashfreePayment (some id) (Except.error ()) eff store
        = ⟨⟨500, false, some "FAILED"⟩, store, []⟩ ∧
    (verifyCashfreePayment (some id) (Except.ok o) eff store).resp
        = ⟨200, false, some "FAILED"⟩ ∧
    (verifyCashfreePayment (some id) (Except.error ()) eff store).resp
        ≠ (verifyCashfreePayment (some id) (Except.ok o) eff store).resp := by
  have h1 := verifyPhonePe_err id store rec eff hid hrec
  have h2 := verifyPhonePe_other id store rec eff r hid hrec hc hp
  have h3 := verifyCashfree_err id store rec eff hid hrec
  have h4 := verifyCashfree_other id store rec eff o hid hrec hpaid hactive
  rw [h1, h2, h3, h4]
  refine ⟨rfl, rfl, by simp, rfl, rfl, by simp⟩

/-- Witness for the C8 theorem at concrete inputs (a FAILED PhonePe state
and an EXPIRED Cashfree order). -/
theorem c8_provider_error_distinct_witness :
    ("CMS1" : String) ≠ "" ∧ lookup sampleStore "CMS1" = some sampleRec ∧
    (some "FAILED" : JStr) ≠ some "COMPLETED" ∧
    (some "FAILED" : JStr) ≠ some "PENDING" ∧
    (some "EXPIRED" : JStr) ≠ some "PAID" ∧
    (some "EXPIRED" : JStr) ≠ some "ACTIVE" ∧
    (verifyPhonePePayment (some "CMS1") (Except.error ()) bothOk sampleStore
        = ⟨⟨500, false, some "FAILED"⟩, sampleStore, []⟩ ∧
     (verifyPhonePePayment (some "CMS1")
        (Except.ok (some ⟨some "FAILED"⟩)) bothOk sampleStore).resp
        = ⟨200, false, some "FAILED"⟩ ∧
     (verifyPhonePePayment (some "CMS1") (Except.error ()) bothOk
        sampleStore).resp
        ≠ (verifyPhonePePayment (some "CMS1")
            (Except.ok (some ⟨some "FAILED"⟩)) bothOk sampleStore).resp ∧
     verifyCashfreePayment (some "CMS1") (Except.error ()) bothOk sampleStore
        = ⟨⟨500, false, some "FAILED"⟩, sampleStore, []⟩ ∧
     (verifyCashfreePayment (some "CMS1") (Except.ok ⟨some "EXPIRED"⟩) bothOk
        sampleStore).resp = ⟨200, false, some "FAILED"⟩ ∧
     (verifyCashfreePayment (some "CMS1") (Except.error ()) bothOk
        sampleStore).resp
        ≠ (verifyCashfreePayment (some "CMS1") (Except.ok ⟨some "EXPIRED"⟩)
            bothOk sampleStore).resp) :=
  ⟨by decide, by decide, by decide, by decide, by decide, by decide,
    c8_provider_error_distinct "CMS1" sampleStore sampleRec bothOk
      ⟨some "FAILED"⟩ ⟨some "EXPIRED"⟩ (by decide) (by decide) (by decide)
      (by decide) (by decide) (by decide)⟩

/-- Claim C9, counterexample: `initiateCashfreePayment` checks only the
presence of amount, email and name — an initiation with amount = -5 is not
rejected: the provider order is created, the handler responds success, and a
transaction with non-positive amount is persisted. -/
theorem c9_counterexample :
    (negReq.amount = some (-5) ∧ (-5 : Int) ≤ 0) ∧
    (initiateCashfreePayment negReq "NEW2" (Except.ok (some okCreate))
        []).resp.success = true ∧
    lookup (initiateCashfreePayment negReq "NEW2" (Except.ok (some okCreate))
        []).store "NEW2"
      = some { newPaymentInfo negReq "NEW2" with
                status := some "INITIATED",
                cashfreeOrderId := okCreate.order_id,
                paymentSessionId := okCreate.payment_session_id } ∧
    (newPaymentInfo negReq "NEW2").amount = .num (-5) := by decide

/-- Claim C9 as amended: the PhonePe initiation rejects any request whose
amount is ≤ 0 before touching the store (all its validation branches leave
the store unchanged), but the Cashfree initiation checks only field
presence, so a request with a negative amount always persists a transaction
whose amount is that non-positive value — regardless of the provider
outcome. -/
theorem c9_amended_validation (req : InitiationRequest) (newId : String)
    (store : Store) (a : Int)
    (pr : Except Unit (Option PhonePePayResponse))
    (cr : Except Unit (Option CashfreeCreateOrderData))
    (hamt : req.amount = some a)
    (hem : jsTruthy req.customerEmail = true)
    (hnm : jsTruthy req.customerName = true) :
    (a ≤ 0 →
      initiatePhonePePayment req newId pr store
        = ⟨⟨400, false, none⟩, store, []⟩) ∧
    (a < 0 →
      ∃ recd,
        lookup (initiateCashfreePayment req newId cr store).store newId
            = some recd ∧
        recd.amount = .num a) := by
  constructor
  · intro hle
    simp only [initiatePhonePePayment, hamt]
    split
    · rfl
    · split
      · rfl
      · simp [Option.getD, hle]
  · intro hlt
    have hne : a ≠ 0 := by omega
    have hguard : (jsNumTruthy req.amount && jsTruthy req.customerEmail
        && jsTruthy req.customerName) = true := by
      simp [jsNumTruthy, hamt, hne, hem, hnm]
    have hamount : (newPaymentInfo req newId).amount = .num a := by
      simp [newPaymentInfo, hamt]
    simp only [initiateCashfreePayment, hguard, Bool.not_true,
      Bool.false_eq_true, if_false]
    rcases cr with u | dOpt
    · exact ⟨newPaymentInfo req newId, lookup_setKey_self _ _ _, hamount⟩
    · rcases dOpt with _ | d
      · exact ⟨newPaymentInfo req newId, lookup_setKey_self _ _ _, hamount⟩
      · by_cases hs : jsTruthy d.payment_session_id
        · refine ⟨{ newPaymentInfo req newId with
                      status := some "INITIATED",
                      cashfreeOrderId := d.order_id,
                      paymentSessionId := d.payment_session_id }, ?_, hamount⟩
          simp only [hs, if_true]
          exact lookup_setKey_self _ _ _
        · simp only [Bool.not_eq_true] at hs
          simp only [hs, Bool.false_eq_true, if_false]
          exact ⟨newPaymentInfo req newId, lookup_setKey_self _ _ _, hamount⟩

/-- Witness for the amended C9 theorem at concrete inputs. -/
theorem c9_amended_validation_witness :
    negReq.amount = some (-5) ∧
    jsTruthy negReq.customerEmail = true ∧
    jsTruthy negReq.customerName = true ∧
    (((-5 : Int) ≤ 0 →
        initiatePhonePePayment negReq "NEW2" (Except.error ()) []
          = ⟨⟨400, false, none⟩, [], []⟩) ∧
     ((-5 : Int) < 0 →
        ∃ recd,
          lookup (initiateCashfreePayment negReq "NEW2"
              (Except.ok (some okCreate)) []).store "NEW2" = some recd ∧
          recd.amount = .num (-5))) :=
  ⟨by decide, by decide, by decide,
    c9_amended_validation negReq "NEW2" [] (-5) (Except.error ())
      (Except.ok (some okCreate)) (by decide) (by decide) (by decide)⟩

/-- Claim C10, confirmed: the result of a verification handler — its HTTP
response, the stored state, and even the recorded dispatch attempts — does
not depend on whether the notification email or the Firestore archive
succeeds (both are caught and only logged), and a Cashfree PAID / PhonePe
COMPLETED verification still reports SUCCESS to the payer and records the
provider's success state whatever those outcomes are. -/
theorem c10_side_effect_failure_frame (id : String) (store : Store)
    (rec : PaymentRecord) (e1 e2 : EffectOutcomes)
    (fres : Except Unit CashfreeOrderData)
    (sres : Except Unit (Option PhonePeStatusResponse))
    (hid : id ≠ "") (hrec : lookup store id = some rec) :
    verifyCashfreePayment (some id) fres e1 store
        = verifyCashfreePayment (some id) fres e2 store ∧
    verifyPhonePePayment (some id) sres e1 store
        = verifyPhonePePayment (some id) sres e2 store ∧
    cashfreeWebhook (some id) (some "PAID") e1 store
        = cashfreeWebhook (some id) (some "PAID") e2 store ∧
    (verifyCashfreePayment (some id) (Except.ok paidOrder) e1 store).resp
        = ⟨200, true, some "SUCCESS"⟩ ∧
    lookup (verifyCashfreePayment (some id) (Except.ok paidOrder) e1
        store).store id = some { rec with status := some "PAID" } ∧
    (verifyPhonePePayment (some id) (Except.ok (some ⟨some "COMPLETED"⟩)) e1
        store).resp = ⟨200, true, some "SUCCESS"⟩ := by
  refine ⟨rfl, rfl, rfl, ?_, ?_, ?_⟩
  · rw [verifyCashfree_paid id store rec e1 hid hrec]
  · rw [verifyCashfree_paid id store rec e1 hid hrec]
    exact lookup_setKey_self _ _ _
  · rw [verifyPhonePe_completed id store rec e1 hid hrec]

/-- Witness for the C10 theorem at concrete inputs, with the email and the
archive both failing on one side. -/
theorem c10_side_effect_failure_frame_witness :
    ("CMS1" : String) ≠ "" ∧ lookup sampleStore "CMS1" = some sampleRec ∧
    (verifyCashfreePayment (some "CMS1") (Except.ok paidOrder) ⟨false, false⟩
        sampleStore
        = verifyCashfreePayment (some "CMS1") (Except.ok paidOrder) bothOk
            sampleStore ∧
     verifyPhonePePayment (some "CMS1") (Except.ok (some ⟨some "COMPLETED"⟩))
        ⟨false, false⟩ sampleStore
        = verifyPhonePePayment (some "CMS1")
            (Except.ok (some ⟨some "COMPLETED"⟩)) bothOk sampleStore ∧
     cashfreeWebhook (some "CMS1") (some "PAID") ⟨false, false⟩ sampleStore
        = cashfreeWebhook (some "CMS1") (some "PAID") bothOk sampleStore ∧
     (verifyCashfreePayment (some "CMS1") (Except.ok paidOrder) ⟨false, false⟩
        sampleStore).resp = ⟨200, true, some "SUCCESS"⟩ ∧
     lookup (verifyCashfreePayment (some "CMS1") (Except.ok paidOrder)
        ⟨false, false⟩ sampleStore).store "CMS1"
        = some { sampleRec with status := some "PAID" } ∧
     (verifyPhonePePayment (some "CMS1") (Except.ok (some ⟨some "COMPLETED"⟩))
        ⟨false, false⟩ sampleStore).resp = ⟨200, true, some "SUCCESS"⟩) :=
  ⟨by decide, by decide,
    c10_side_effect_failure_frame "CMS1" sampleStore sampleRec
      ⟨false, false⟩ bothOk (Except.ok paidOrder)
      (Except.ok (some ⟨some "COMPLETED"⟩)) (by decide) (by decide)⟩

end CMS
